import Mathlib

/-!
Verification of the PaperWise asynchronous job-orchestration subsystem.

The definitions below are shallow embeddings of the repository code:
the Chrome extension background script (background.js), its popup
script (popup.js), the content script (content.js), and the frontend
streaming component (StreamingAnalysisResults.tsx).  The backend job
service (FastAPI plus Redis queue) is not present in the source tree;
where a claim depends on it, the corresponding definition is modelled
from the specification and marked as such in its doc comment.

Strings from the JavaScript sources are modelled as `List Char` where
character-level processing matters, and as `String` elsewhere; option
types model JavaScript values that may be undefined or null.
-/

/- ===================================================================
   Part 1: arXiv PDF-URL extraction (content.js and background.js)
   =================================================================== -/

/-- matchLit pat s returns the remainder of s after the literal pat,
or none if pat is not a leading segment of s. -/
def matchLit : List Char → List Char → Option (List Char)
  | [], s => some s
  | _ :: _, [] => none
  | p :: ps, c :: cs => if p = c then matchLit ps cs else none

/-- takeDigits s splits s into its maximal leading run of decimal digits
and the rest, mirroring the greedy semantics of the regex atom [0-9]+. -/
def takeDigits : List Char → List Char × List Char
  | [] => ([], [])
  | c :: cs =>
    if c.isDigit then
      let p := takeDigits cs
      (c :: p.1, p.2)
    else ([], c :: cs)

/-- matchIdAt s attempts to match the JavaScript regular expression
arxiv\.org\/(?:abs|html)\/([0-9]+\.[0-9]+) at the start of s, returning
the captured group.  Greedy digit runs need no backtracking here because
a digit can never satisfy the literal dot that follows the first run. -/
def matchIdAt (s : List Char) : Option (List Char) :=
  match matchLit "arxiv.org/".toList s with
  | none => none
  | some s1 =>
    let s2opt :=
      match matchLit "abs/".toList s1 with
      | some r => some r
      | none => matchLit "html/".toList s1
    match s2opt with
    | none => none
    | some s2 =>
      let p1 := takeDigits s2
      if p1.1 = [] then none
      else
        match p1.2 with
        | '.' :: r2 =>
          let p2 := takeDigits r2
          if p2.1 = [] then none else some (p1.1 ++ '.' :: p2.1)
        | _ => none

/-- firstArxivId s scans s left to right for the first position where the
arXiv-id pattern matches, like an unanchored JavaScript regex search. -/
def firstArxivId : List Char → Option (List Char)
  | [] => none
  | c :: cs =>
    match matchIdAt (c :: cs) with
    | some found => some found
    | none => firstArxivId cs

/-- containsSub needle hay mirrors JavaScript String.prototype.includes. -/
def containsSub (needle : List Char) : List Char → Bool
  | [] => needle.isPrefixOf []
  | c :: cs => needle.isPrefixOf (c :: cs) || containsSub needle cs

/-- Embedding of extractPdfUrl from content.js (lines 138-158): returns
the URL itself when it contains "/pdf/", otherwise converts an abs/html
URL to a PDF URL with no ".pdf" extension, otherwise null. -/
def content_extractPdfUrl (url : List Char) : Option (List Char) :=
  if containsSub "/pdf/".toList url then some url
  else
    match firstArxivId url with
    | some arxivId => some ("https://arxiv.org/pdf/".toList ++ arxivId)
    | none => none

/-- Embedding of extractPdfUrl from background.js (lines 48-60): same
structure as the content-script version, but the converted URL ends in
".pdf". -/
def background_extractPdfUrl (url : List Char) : Option (List Char) :=
  if containsSub "/pdf/".toList url then some url
  else
    match firstArxivId url with
    | some arxivId => some ("https://arxiv.org/pdf/".toList ++ arxivId ++ ".pdf".toList)
    | none => none

/- ===================================================================
   Part 2: SSE line-parsing loop (background.js lines 127-155 and
   StreamingAnalysisResults.tsx lines 163-193)
   =================================================================== -/

/-- splitNl s splits s at newline characters, returning the complete
lines (in order) and the trailing text after the last newline.  This is
the combination used by both stream loops: JavaScript
buffer.split of a newline followed by lines.pop yields exactly these
two components. -/
def splitNl : List Char → List (List Char) × List Char
  | [] => ([], [])
  | c :: rest =>
    let p := splitNl rest
    if c = '\n' then ([] :: p.1, p.2)
    else
      match p with
      | ([], tr) => ([], c :: tr)
      | (l :: ls, tr) => ((c :: l) :: ls, tr)

/-- parseDataLine parse l mirrors the body of the loop over complete
lines: a line is considered only when it starts with "data: ", in which
case the remainder is handed to the JSON parser; a parse failure is
swallowed (the line is skipped) rather than aborting the stream. -/
def parseDataLine {α : Type} (parse : List Char → Option α) (l : List Char) : Option α :=
  if "data: ".toList.isPrefixOf l then parse (l.drop 6) else none

/-- sseStep parse buf chunk is one iteration of the read loop: the
decoded chunk is appended to the carry-over buffer, the result is split
on newlines, the final incomplete line becomes the new buffer, and every
complete data line is parsed in order (malformed ones skipped). -/
def sseStep {α : Type} (parse : List Char → Option α) (buf chunk : List Char) :
    List Char × List α :=
  let p := splitNl (buf ++ chunk)
  (p.2, p.1.filterMap (parseDataLine parse))

/-- sseRun parse buf chunks runs the read loop over a whole sequence of
decoded chunks, threading the buffer and concatenating the parsed event
payloads in order.  When the stream ends, any trailing incomplete line
is left in the buffer unprocessed, exactly as in the source loops. -/
def sseRun {α : Type} (parse : List Char → Option α) (buf : List Char) :
    List (List Char) → List Char × List α
  | [] => (buf, [])
  | ch :: rest =>
    let s1 := sseStep parse buf ch
    let s2 := sseRun parse s1.1 rest
    (s2.1, s1.2 ++ s2.2)

/- ===================================================================
   Part 3: extension background script state model (background.js)
   =================================================================== -/

/-- alookup mirrors Map.prototype.get on the association-list model of a
JavaScript Map. -/
def alookup {β : Type} (k : String) : List (String × β) → Option β
  | [] => none
  | (k2, v) :: rest => if k = k2 then some v else alookup k rest

/-- aupdate k f applies f to the value stored under k, modelling the
common JavaScript pattern of fetching an object from a Map and mutating
its fields in place. -/
def aupdate {β : Type} (k : String) (f : β → β) : List (String × β) → List (String × β)
  | [] => []
  | (k2, v) :: rest => if k = k2 then (k2, f v) :: rest else (k2, v) :: aupdate k f rest

/-- aerase mirrors Map.prototype.delete. -/
def aerase {β : Type} (k : String) : List (String × β) → List (String × β)
  | [] => []
  | (k2, v) :: rest => if k = k2 then rest else (k2, v) :: aerase k rest

/-- jsOrStr v d models the JavaScript expression v || d for a possibly
undefined string v: undefined and the empty string are falsy. -/
def jsOrStr (v : Option String) (d : String) : String :=
  match v with
  | none => d
  | some s => if s = "" then d else s

/-- jsOrNat v d models v || d for a possibly undefined number v:
undefined and 0 are falsy. -/
def jsOrNat (v : Option Nat) (d : Nat) : Nat :=
  match v with
  | none => d
  | some n => if n = 0 then d else n

/-- BgJob is the record stored in the activeJobs map of the background
script at submission time ({ url, submittedAt }), later extended with
completedAt and result on completion. -/
structure BgJob where
  url : String
  submittedAt : Nat
  completedAt : Option Nat := none
  result : Option String := none
deriving DecidableEq, Repr

/-- SseEvent is a parsed SSE data payload as consumed by the background
script: a type tag plus the fields the handlers read. -/
structure SseEvent where
  type : String
  progress : Option Nat := none
  stage : Option String := none
  error : Option String := none
deriving DecidableEq, Repr

/-- PopupMsg models the chrome.runtime.sendMessage payloads sent from
the background script to the popup. -/
inductive PopupMsg where
  | jobProgress (jobId : String) (progress : Nat) (stage : String)
  | jobComplete (jobId : String) (result : String)
  | jobError (jobId : String) (error : String)
deriving DecidableEq, Repr

/-- Effect models a call from the background script into a Chrome API or
the network: badge updates, notifications, messages to the popup, the
result fetch, cancelling an SSE reader.  These are the externally
observable actions of the script. -/
inductive Effect where
  | setBadgeText (t : String)
  | setBadgeColor (c : String)
  | sendMessage (m : PopupMsg)
  | notify (title msg : String)
  | fetchResult (jobId : String)
  | readerCancel (jobId : String)
deriving DecidableEq, Repr

/-- BgState is the mutable state of the background script: the activeJobs
map and the set of job ids with a live SSE connection. -/
structure BgState where
  activeJobs : List (String × BgJob)
  sseConnections : List String := []
deriving DecidableEq, Repr

namespace Background

/-- Embedding of updateJobProgress from background.js (lines 190-207):
reads event.progress or 0 and event.stage or a placeholder, sets the
badge, and notifies the popup.  It performs no comparison with any
previously recorded progress value. -/
def updateJobProgress (jobId : String) (e : SseEvent) : List Effect :=
  let progress := jsOrNat e.progress 0
  let stage := jsOrStr e.stage "Processing..."
  [Effect.setBadgeText (toString progress ++ "%"),
   Effect.setBadgeColor "#4285f4",
   Effect.sendMessage (PopupMsg.jobProgress jobId progress stage)]

/-- Embedding of handleJobComplete from background.js (lines 210-241).
The async result fetch is modelled by the fetchRes argument: some r when
the fetch succeeds with body r, none when it fails. -/
def handleJobComplete (fetchRes : Option String) (now : Nat) (s : BgState)
    (jobId : String) : BgState × List Effect :=
  match alookup jobId s.activeJobs with
  | none => (s, [])
  | some _ =>
    match fetchRes with
    | some r =>
      let jobs2 := aupdate jobId
        (fun j => { j with completedAt := some now, result := some r }) s.activeJobs
      ({ s with activeJobs := jobs2 },
       [Effect.setBadgeText "", Effect.fetchResult jobId,
        Effect.notify "Analysis Complete!" "Paper analysis finished. Click to view results.",
        Effect.sendMessage (PopupMsg.jobComplete jobId r)])
    | none =>
      (s, [Effect.setBadgeText "", Effect.fetchResult jobId,
           Effect.notify "Analysis Complete" "Results may take a moment to load"])

/-- Embedding of handleJobError from background.js (lines 244-260). -/
def handleJobError (s : BgState) (jobId : String) (e : SseEvent) : BgState × List Effect :=
  match alookup jobId s.activeJobs with
  | none => (s, [])
  | some _ =>
    let errorMsg := jsOrStr e.error "Unknown error"
    (s, [Effect.setBadgeText "",
         Effect.notify "Analysis Failed" errorMsg,
         Effect.sendMessage (PopupMsg.jobError jobId errorMsg)])

/-- Embedding of handleSseEvent from background.js (lines 165-187): the
dispatch first drops events for jobs absent from activeJobs, then
switches on event.type, handling exactly the tags "status", "done" and
"error"; every other tag (the default case) only logs and has no
observable effect. -/
def handleSseEvent (fetchRes : Option String) (now : Nat) (s : BgState)
    (jobId : String) (e : SseEvent) : BgState × List Effect :=
  match alookup jobId s.activeJobs with
  | none => (s, [])
  | some _ =>
    if e.type = "status" then (s, updateJobProgress jobId e)
    else if e.type = "done" then handleJobComplete fetchRes now s jobId
    else if e.type = "error" then handleJobError s jobId e
    else (s, [])

/-- processEvents threads handleSseEvent over a list of parsed SSE
payloads, as the read loop in startSseStream does for each complete
data line. -/
def processEvents (fetchRes : Option String) (now : Nat) (s : BgState) (jobId : String) :
    List SseEvent → BgState × List Effect
  | [] => (s, [])
  | e :: rest =>
    let r1 := handleSseEvent fetchRes now s jobId e
    let r2 := processEvents fetchRes now r1.1 jobId rest
    (r2.1, r1.2 ++ r2.2)

/-- Embedding of the lifecycle of startSseStream from background.js
(lines 112-162) for an established connection: the connection is
registered in sseConnections, the parsed events are handled in order,
a connection error (the catch block) produces only a notification, and
the finally block removes the connection.  The function issues no
re-subscription and no polling request on any path. -/
def startSseStream (fetchRes : Option String) (now : Nat) (s : BgState) (jobId : String)
    (events : List SseEvent) (connectionError : Bool) : BgState × List Effect :=
  let s0 : BgState :=
    { s with sseConnections :=
        if s.sseConnections.contains jobId then s.sseConnections
        else jobId :: s.sseConnections }
  let r := processEvents fetchRes now s0 jobId events
  let effs :=
    if connectionError then
      r.2 ++ [Effect.notify "Connection Error" "Lost connection to analysis service"]
    else r.2
  ({ r.1 with sseConnections := r.1.sseConnections.filter (fun c => c ≠ jobId) }, effs)

/-- CancelResponse models the object passed to sendResponse by the
background message listener for cancel_job requests. -/
structure CancelResponse where
  success : Bool
deriving DecidableEq, Repr

/-- Embedding of cancelJob from background.js (lines 333-345): removes
the job from local tracking, cancels and forgets any SSE reader, and
clears the badge.  Its own comment records that backend cancellation is
not implemented; no request of any kind is sent to the server. -/
def cancelJob (s : BgState) (jobId : String) : BgState × List Effect :=
  let s1 : BgState := { s with activeJobs := aerase jobId s.activeJobs }
  if s1.sseConnections.contains jobId then
    ({ s1 with sseConnections := s1.sseConnections.filter (fun c => c ≠ jobId) },
     [Effect.readerCancel jobId, Effect.setBadgeText ""])
  else (s1, [Effect.setBadgeText ""])

/-- Embedding of the cancel_job branch of the onMessage listener
(background.js lines 315-330): it calls cancelJob and unconditionally
responds with success true, for any job id whatsoever. -/
def handleCancelMessage (s : BgState) (jobId : String) :
    BgState × List Effect × CancelResponse :=
  let r := cancelJob s jobId
  (r.1, r.2, { success := true })

end Background

/- ===================================================================
   Part 4: extension popup script state model (popup.js)
   =================================================================== -/

/-- PJob is a record in the jobs map of the popup.  Every field may be
absent: entries copied from the background activeJobs map initially
carry only url and submittedAt, and the popup handlers add the rest
over time. -/
structure PJob where
  url : Option String := none
  submittedAt : Option Nat := none
  status : Option String := none
  progress : Option Nat := none
  stage : Option String := none
  error : Option String := none
  result : Option String := none
  completedAt : Option Nat := none
deriving DecidableEq, Repr

namespace Popup

/-- Embedding of updateJobProgress from popup.js (lines 71-78): if the
job is tracked, overwrite its progress and stage with the incoming
values; no comparison against the previously recorded progress. -/
def updateJobProgress (jobs : List (String × PJob)) (jobId : String)
    (progress : Nat) (stage : String) : List (String × PJob) :=
  match alookup jobId jobs with
  | none => jobs
  | some _ =>
    aupdate jobId (fun j => { j with progress := some progress, stage := some stage }) jobs

/-- Embedding of handleJobComplete from popup.js (lines 80-88): marks a
tracked job done, stores the result and completion time; progress is
left untouched. -/
def handleJobComplete (now : Nat) (jobs : List (String × PJob)) (jobId : String)
    (result : String) : List (String × PJob) :=
  match alookup jobId jobs with
  | none => jobs
  | some _ =>
    aupdate jobId
      (fun j => { j with status := some "done", result := some result,
                         completedAt := some now }) jobs

/-- Embedding of handleJobError from popup.js (lines 90-97). -/
def handleJobError (jobs : List (String × PJob)) (jobId : String)
    (error : String) : List (String × PJob) :=
  match alookup jobId jobs with
  | none => jobs
  | some _ =>
    aupdate jobId (fun j => { j with status := some "error", error := some error }) jobs

/-- Embedding of retryJob from popup.js (lines 267-281): for a tracked
job it deletes the error field and sets status back to queued, progress
to 0 and stage to a retry placeholder. -/
def retryJob (jobs : List (String × PJob)) (jobId : String) : List (String × PJob) :=
  match alookup jobId jobs with
  | none => jobs
  | some _ =>
    aupdate jobId
      (fun j => { j with error := none, status := some "queued",
                         progress := some 0, stage := some "Retrying..." }) jobs

/-- Embedding of the local effect of cancelJob from popup.js (lines
252-265): after messaging the background script, the popup removes the
job from its own map. -/
def cancelJob (jobs : List (String × PJob)) (jobId : String) : List (String × PJob) :=
  aerase jobId jobs

end Popup

/-- statusOf reads the status field of the job stored under an id. -/
def statusOf (jobId : String) (jobs : List (String × PJob)) : Option String :=
  match alookup jobId jobs with
  | none => none
  | some j => j.status

/-- progressOf reads the progress field of the job stored under an id. -/
def progressOf (jobId : String) (jobs : List (String × PJob)) : Option Nat :=
  match alookup jobId jobs with
  | none => none
  | some j => j.progress

/-- stateRank orders the job states along the documented lifecycle
queued (0), processing (1), done and error (both 2); getJobStatus in
popup.js treats an absent status as Queued, hence rank 0 for every
other value. -/
def stateRank (s : Option String) : Nat :=
  if s = some "processing" then 1
  else if s = some "done" then 2
  else if s = some "error" then 2
  else 0

/- ===================================================================
   Part 5: backend job service, modelled from the spec
   =================================================================== -/

/-- SubmitRequest is the body of POST /api/v1/analyze/async: at most one
of file_id and pdf_url, plus an analysis type and optional query. -/
structure SubmitRequest where
  file_id : Option String := none
  pdf_url : Option String := none
  analysis_type : String := "comprehensive"
  query : Option String := none
deriving DecidableEq, Repr

/-- ServerJob is the backend job record of the data model in the design
document: state, progress, stage and the source union. -/
structure ServerJob where
  state : String
  progress : Nat
  stage : String
  source_type : String
  source_value : String
deriving DecidableEq, Repr

/-- SubmitOutcome is the synchronous result of Submit: an accepted job
id, a validation rejection, or the saturation (429) rejection. -/
inductive SubmitOutcome where
  | accepted (jobId : String)
  | validationError
  | saturated
deriving DecidableEq, Repr

/-- Backend combines the job store and the pending queue. -/
structure Backend where
  jobs : List (String × ServerJob)
  queue : List String
deriving DecidableEq, Repr

/-- exactlyOneSource decides the union invariant of the submission
payload: exactly one of file_id and pdf_url present. -/
def exactlyOneSource (r : SubmitRequest) : Bool :=
  match r.file_id, r.pdf_url with
  | some _, none => true
  | none, some _ => true
  | _, _ => false

/-- Modelled from the spec: the bounded Queue enqueue contract (spec
section 4.2 and the back-pressure note of the design document).  The
backend queue implementation is not in the source tree.  enqueue is
non-blocking: with the queue at capacity it rejects immediately (none,
standing for Saturated) instead of growing the backlog. -/
def enqueueJob (qmax : Nat) (q : List String) (jobId : String) : Option (List String) :=
  if qmax ≤ q.length then none else some (q ++ [jobId])

/-- Modelled from the spec: the backend Submit operation
(POST /api/v1/analyze/async) is absent from the source tree; only the
design document and its extension callers are present.  Following spec
sections 4.5 and 7: validation of the source union happens first and a
rejected submission never reaches a job record; a saturated queue also
rejects before any record is created; otherwise a job record is created
in state queued with progress 0 and the id is enqueued. -/
def submitAsync (qmax : Nat) (newId : String) (b : Backend) (r : SubmitRequest) :
    Backend × SubmitOutcome :=
  if exactlyOneSource r = false then (b, SubmitOutcome.validationError)
  else
    match enqueueJob qmax b.queue newId with
    | none => (b, SubmitOutcome.saturated)
    | some q2 =>
      let sj : ServerJob :=
        { state := "queued", progress := 0, stage := "queued",
          source_type := if r.file_id.isSome then "file_id" else "pdf_url",
          source_value := r.file_id.getD (r.pdf_url.getD "") }
      ({ jobs := (newId, sj) :: b.jobs, queue := q2 }, SubmitOutcome.accepted newId)

/- ===================================================================
   Part 6: concrete inputs used by counterexamples and witnesses
   =================================================================== -/

/-- c1Jobs holds one errored job, as left behind by a failed analysis. -/
def c1Jobs : List (String × PJob) :=
  [("j1", { status := some "error", progress := some 80, error := some "analysis failed" })]

/-- c2Jobs holds one job mid-processing. -/
def c2Jobs : List (String × PJob) :=
  [("j1", { status := some "processing" })]

/-- c4State tracks one active job in the background script. -/
def c4State : BgState :=
  { activeJobs := [("j1", { url := "https://arxiv.org/pdf/1234.5678", submittedAt := 0 })] }

/-- c4StateEv is a progress event tagged "state", the tag the design
document specifies for state changes. -/
def c4StateEv : SseEvent := { type := "state", progress := some 35, stage := some "parsing" }

/-- c4LogEv is a log event tagged "log", as in the design document. -/
def c4LogEv : SseEvent := { type := "log" }

/-- c4StatusEv is the same progress payload under the tag "status", the
tag the dispatch in background.js actually handles. -/
def c4StatusEv : SseEvent := { type := "status", progress := some 35, stage := some "parsing" }

/-- c5State tracks one active job whose outcome is still unknown. -/
def c5State : BgState :=
  { activeJobs := [("j1", { url := "https://arxiv.org/pdf/1234.5678", submittedAt := 0 })] }

/-- c5Events is the prefix of a stream delivered before the connection
drops: one progress event and no terminal event. -/
def c5Events : List SseEvent :=
  [{ type := "status", progress := some 40, stage := some "parsing" }]

/-- c7State tracks one job with a live SSE connection. -/
def c7State : BgState :=
  { activeJobs := [("j1", { url := "https://arxiv.org/pdf/1234.5678", submittedAt := 0 })],
    sseConnections := ["j1"] }

/-- c9Parse is a toy payload parser that fails on the payload "oops",
standing in for JSON.parse throwing on a malformed line. -/
def c9Parse (l : List Char) : Option (List Char) :=
  if l = "oops".toList then none else some l

/-- c9Chunks1 is one way of chunking an event-stream text, cutting in
the middle of a data line. -/
def c9Chunks1 : List (List Char) :=
  ["data: a\nda".toList, "ta: oops\ndata: b\ntail".toList]

/-- c9Chunks2 delivers the same text as c9Chunks1 in a single chunk. -/
def c9Chunks2 : List (List Char) :=
  ["data: a\ndata: oops\ndata: b\ntail".toList]

/-- c10State tracks a single job, under a different id than the events
used against it. -/
def c10State : BgState :=
  { activeJobs := [("tracked", { url := "https://arxiv.org/pdf/1234.5678", submittedAt := 0 })] }

/-- c10Event is a well-formed progress event for an untracked job id. -/
def c10Event : SseEvent := { type := "status", progress := some 10, stage := some "parsing" }

/-- cBackendEmpty is a fresh backend with no jobs and an empty queue. -/
def cBackendEmpty : Backend := { jobs := [], queue := [] }

/-- cBackendFull is a backend whose queue holds two pending ids. -/
def cBackendFull : Backend := { jobs := [], queue := ["a", "b"] }

/-- cReqBoth is a submission with both source variants populated. -/
def cReqBoth : SubmitRequest :=
  { file_id := some "f1", pdf_url := some "https://arxiv.org/pdf/1234.5678.pdf" }

/-- cReqNeither is a submission with no source variant populated. -/
def cReqNeither : SubmitRequest := {}

/-- cReqUrl is a well-formed submission by remote URL. -/
def cReqUrl : SubmitRequest := { pdf_url := some "https://arxiv.org/pdf/1234.5678.pdf" }

/- ===================================================================
   Helper lemmas
   =================================================================== -/

theorem splitNl_cons (c : Char) (t : List Char) :
    splitNl (c :: t) =
      if c = '\n' then ([] :: (splitNl t).1, (splitNl t).2)
      else
        match splitNl t with
        | ([], tr) => ([], c :: tr)
        | (l :: ls, tr) => ((c :: l) :: ls, tr) := rfl

theorem splitNl_append (x y : List Char) :
    splitNl (x ++ y) =
      ((splitNl x).1 ++ (splitNl ((splitNl x).2 ++ y)).1,
        (splitNl ((splitNl x).2 ++ y)).2) := by
  induction x with
  | nil => simp [splitNl]
  | cons c x ih =>
    rcases hx : splitNl x with ⟨ls, tr⟩
    rcases hy : splitNl (tr ++ y) with ⟨ls2, tr2⟩
    by_cases hc : c = '\n'
    · subst hc
      simp [List.cons_append, splitNl_cons, hx, ih, hy]
    · cases ls with
      | nil =>
        cases ls2 <;> simp [List.cons_append, splitNl_cons, hc, ih, hx, hy]
      | cons l ls =>
        simp [List.cons_append, splitNl_cons, hc, ih, hx, hy]

theorem splitNl_no_newline (x : List Char) (h : '\n' ∉ x) : splitNl x = ([], x) := by
  induction x with
  | nil => rfl
  | cons c x ih =>
    have hc : c ≠ '\n' := fun hh => h (hh ▸ List.mem_cons_self c x)
    have hx : '\n' ∉ x := fun hh => h (List.mem_cons_of_mem c hh)
    simp [splitNl, if_neg hc, ih hx]

theorem splitNl_snd_no_newline (x : List Char) : '\n' ∉ (splitNl x).2 := by
  induction x with
  | nil => simp [splitNl]
  | cons c x ih =>
    by_cases hc : c = '\n'
    · subst hc
      simpa [splitNl] using ih
    · rcases hx : splitNl x with ⟨ls, tr⟩
      rw [hx] at ih
      cases ls with
      | nil =>
        simp only [splitNl, if_neg hc, hx]
        intro hmem
        rcases List.mem_cons.mp hmem with h1 | h2
        · exact hc h1.symm
        · exact ih h2
      | cons l ls =>
        simpa [splitNl, if_neg hc, hx] using ih

theorem sseStep_append {α : Type} (parse : List Char → Option α) (buf a b : List Char) :
    sseStep parse buf (a ++ b) =
      ((sseStep parse (sseStep parse buf a).1 b).1,
        (sseStep parse buf a).2 ++ (sseStep parse (sseStep parse buf a).1 b).2) := by
  simp only [sseStep, ← List.append_assoc, splitNl_append (buf ++ a) b,
    List.filterMap_append]

theorem sseRun_flatten {α : Type} (parse : List Char → Option α) (chunks : List (List Char)) :
    ∀ buf : List Char, '\n' ∉ buf →
      sseRun parse buf chunks = sseStep parse buf chunks.flatten := by
  induction chunks with
  | nil =>
    intro buf hbuf
    simp [sseRun, sseStep, splitNl_no_newline buf hbuf]
  | cons ch rest ih =>
    intro buf _
    have hb1 : '\n' ∉ (sseStep parse buf ch).1 := by
      simpa [sseStep] using splitNl_snd_no_newline (buf ++ ch)
    simp only [sseRun, List.flatten_cons, sseStep_append, ih _ hb1]

theorem alookup_aupdate {β : Type} (k : String) (f : β → β) (l : List (String × β)) :
    alookup k (aupdate k f l) = (alookup k l).map f := by
  induction l with
  | nil => rfl
  | cons kv rest ih =>
    rcases kv with ⟨k2, v⟩
    by_cases h : k = k2
    · simp [alookup, aupdate, h]
    · simp [alookup, aupdate, h, ih]

theorem stateRank_le_two (s : Option String) : stateRank s ≤ 2 := by
  unfold stateRank
  repeat' split
  all_goals omega

/- ===================================================================
   Claims C8 and C9
   =================================================================== -/

example : content_extractPdfUrl "https://arxiv.org/abs/1234.5678".toList
    = some "https://arxiv.org/pdf/1234.5678".toList := by decide

example : background_extractPdfUrl "https://arxiv.org/html/1234.5678".toList
    = some "https://arxiv.org/pdf/1234.5678.pdf".toList := by decide

example : background_extractPdfUrl "https://arxiv.org/pdf/1234.5678".toList
    = some "https://arxiv.org/pdf/1234.5678".toList := by decide

example : background_extractPdfUrl "https://example.com/x".toList = none := by decide

/-- Claim C8 counterexample: on the abstract URL of an arXiv paper the
two extraction functions disagree — the content script returns the PDF
URL without an extension while the background script appends ".pdf" —
so they are not extensionally equal. -/
theorem c8_extractPdfUrl_counterexample :
    content_extractPdfUrl "https://arxiv.org/abs/1234.5678".toList
        = some "https://arxiv.org/pdf/1234.5678".toList ∧
    background_extractPdfUrl "https://arxiv.org/abs/1234.5678".toList
        = some "https://arxiv.org/pdf/1234.5678.pdf".toList ∧
    content_extractPdfUrl "https://arxiv.org/abs/1234.5678".toList
        ≠ background_extractPdfUrl "https://arxiv.org/abs/1234.5678".toList := by
  refine ⟨by decide, by decide, by decide⟩

/-- Claim C8 (amended): the two extraction functions agree on URLs that
contain "/pdf/" (both return the input) and on definedness everywhere;
on a matched abs/html URL the background result is the content result
with ".pdf" appended.  Equivalently, background equals content followed
by conditionally appending the extension. -/
theorem c8_extract_relation_amended (url : List Char) :
    background_extractPdfUrl url =
      (content_extractPdfUrl url).map
        (fun u => if containsSub "/pdf/".toList url then u else u ++ ".pdf".toList) := by
  unfold background_extractPdfUrl content_extractPdfUrl
  split
  next h => simp [h]
  next h => cases hfa : firstArxivId url <;> simp [h, hfa, List.append_assoc]

/-- Claim C9: the SSE line-parsing loop is invariant under re-chunking —
any two chunkings of the same event-stream text produce the same final
buffer and the same ordered list of parsed payloads, with malformed
data lines skipped by the parser argument. -/
theorem c9_sse_chunking_invariant {α : Type} (parse : List Char → Option α)
    (cs1 cs2 : List (List Char)) (h : cs1.flatten = cs2.flatten) :
    sseRun parse [] cs1 = sseRun parse [] cs2 := by
  rw [sseRun_flatten parse cs1 [] (by simp),
      sseRun_flatten parse cs2 [] (by simp), h]

example : (sseRun c9Parse [] c9Chunks1).2 = ["a".toList, "b".toList] := by decide

example : (sseRun c9Parse [] c9Chunks1).1 = "tail".toList := by decide

/-- Claim C9 witness: two concrete chunkings of the same stream text,
one cutting a data line in half, yield identical parse results. -/
theorem c9_sse_chunking_invariant_witness :
    c9Chunks1.flatten = c9Chunks2.flatten ∧
    sseRun c9Parse [] c9Chunks1 = sseRun c9Parse [] c9Chunks2 :=
  ⟨by decide, c9_sse_chunking_invariant c9Parse c9Chunks1 c9Chunks2 (by decide)⟩

/- ===================================================================
   Claims C1 and C2 (popup state transitions)
   =================================================================== -/

/-- Claim C1 counterexample: retryJob in popup.js moves a job that has
reached the terminal state error back to queued, so the state field does
not only move forward through queued, processing, done or error. -/
theorem c1_retry_requeues_counterexample :
    statusOf "j1" c1Jobs = some "error" ∧
    statusOf "j1" (Popup.retryJob c1Jobs "j1") = some "queued" ∧
    stateRank (statusOf "j1" (Popup.retryJob c1Jobs "j1"))
      < stateRank (statusOf "j1" c1Jobs) := by
  refine ⟨by decide, by decide, by decide⟩

/-- Claim C1 (amended): the popup message handlers for progress,
completion and error never move a job state backwards in the lifecycle
order, but retryJob resets any tracked job — in particular an errored
one — back to queued. -/
theorem c1_forward_only_amended (jobs : List (String × PJob)) (jobId : String)
    (p : Nat) (st : String) (now : Nat) (r e : String) :
    stateRank (statusOf jobId jobs)
        ≤ stateRank (statusOf jobId (Popup.updateJobProgress jobs jobId p st)) ∧
    stateRank (statusOf jobId jobs)
        ≤ stateRank (statusOf jobId (Popup.handleJobComplete now jobs jobId r)) ∧
    stateRank (statusOf jobId jobs)
        ≤ stateRank (statusOf jobId (Popup.handleJobError jobs jobId e)) ∧
    (∀ j, alookup jobId jobs = some j →
        statusOf jobId (Popup.retryJob jobs jobId) = some "queued") := by
  rcases h : alookup jobId jobs with _ | j
  · refine ⟨?_, ?_, ?_, ?_⟩ <;>
      simp [Popup.updateJobProgress, Popup.handleJobComplete, Popup.handleJobError,
        Popup.retryJob, h, statusOf]
  · refine ⟨?_, ?_, ?_, ?_⟩
    · have hs : statusOf jobId (Popup.updateJobProgress jobs jobId p st)
          = statusOf jobId jobs := by
        simp [Popup.updateJobProgress, h, statusOf, alookup_aupdate]
      rw [hs]
    · have hs : statusOf jobId (Popup.handleJobComplete now jobs jobId r)
          = some "done" := by
        simp [Popup.handleJobComplete, h, statusOf, alookup_aupdate]
      have h2 : stateRank (some "done") = 2 := by decide
      rw [hs, h2]
      exact stateRank_le_two _
    · have hs : statusOf jobId (Popup.handleJobError jobs jobId e)
          = some "error" := by
        simp [Popup.handleJobError, h, statusOf, alookup_aupdate]
      have h2 : stateRank (some "error") = 2 := by decide
      rw [hs, h2]
      exact stateRank_le_two _
    · intro j2 _
      simp [Popup.retryJob, h, statusOf, alookup_aupdate]

/-- Claim C1 witness: the amended statement evaluated on the concrete
errored job: the progress handler does not move its state backwards,
and retryJob sends it back to queued. -/
theorem c1_forward_only_amended_witness :
    stateRank (statusOf "j1" c1Jobs)
        ≤ stateRank (statusOf "j1" (Popup.updateJobProgress c1Jobs "j1" 10 "parsing")) ∧
    statusOf "j1" (Popup.retryJob c1Jobs "j1") = some "queued" :=
  ⟨(c1_forward_only_amended c1Jobs "j1" 10 "parsing" 0 "res" "err").1,
   (c1_forward_only_amended c1Jobs "j1" 10 "parsing" 0 "res" "err").2.2.2
     { status := some "error", progress := some 80, error := some "analysis failed" }
     (by decide)⟩

/-- Claim C2 counterexample: the popup progress handler records whatever
progress value arrives, so an update carrying 30 after one carrying 50,
both within a single processing span, leaves a recorded value lower than
the previously recorded one. -/
theorem c2_progress_regression_counterexample :
    statusOf "j1" c2Jobs = some "processing" ∧
    progressOf "j1" (Popup.updateJobProgress c2Jobs "j1" 50 "analyzing") = some 50 ∧
    progressOf "j1"
        (Popup.updateJobProgress
          (Popup.updateJobProgress c2Jobs "j1" 50 "analyzing") "j1" 30 "parsing")
      = some 30 ∧
    statusOf "j1"
        (Popup.updateJobProgress
          (Popup.updateJobProgress c2Jobs "j1" 50 "analyzing") "j1" 30 "parsing")
      = some "processing" ∧
    30 < 50 := by
  refine ⟨by decide, by decide, by decide, by decide, by decide⟩

/-- Claim C2 (amended): the popup progress handler copies each incoming
progress value verbatim (no clamping against the previous value), so the
recorded sequence is non-decreasing only when the incoming sequence is;
and on completion the popup marks the job done but leaves progress at
its last recorded value instead of fixing it at 100. -/
theorem c2_progress_recorded_verbatim_amended (jobs : List (String × PJob))
    (jobId : String) (p : Nat) (st : String) (now : Nat) (r : String) :
    (∀ j, alookup jobId jobs = some j →
        alookup jobId (Popup.updateJobProgress jobs jobId p st)
          = some { j with progress := some p, stage := some st }) ∧
    progressOf jobId (Popup.handleJobComplete now jobs jobId r)
      = progressOf jobId jobs := by
  constructor
  · intro j h
    simp [Popup.updateJobProgress, h, alookup_aupdate]
  · rcases h : alookup jobId jobs with _ | j
    · simp [Popup.handleJobComplete, h]
    · simp [Popup.handleJobComplete, h, progressOf, alookup_aupdate]

/-- Claim C2 witness: the amended statement evaluated on the concrete
processing job with an incoming progress of 42. -/
theorem c2_progress_recorded_verbatim_amended_witness :
    alookup "j1" (Popup.updateJobProgress c2Jobs "j1" 42 "analyzing")
      = some { status := some "processing", progress := some 42,
               stage := some "analyzing" } ∧
    progressOf "j1" (Popup.handleJobComplete 7 c2Jobs "j1" "res")
      = progressOf "j1" c2Jobs :=
  ⟨(c2_progress_recorded_verbatim_amended c2Jobs "j1" 42 "analyzing" 7 "res").1
     { status := some "processing" } (by decide),
   (c2_progress_recorded_verbatim_amended c2Jobs "j1" 42 "analyzing" 7 "res").2⟩

/- ===================================================================
   Claims C3 and C6 (backend Submit, modelled from the spec)
   =================================================================== -/

/-- Claim C3: a submission with both source variants or with neither is
rejected with ValidationError and leaves the backend untouched; the job
store changes only for a submission with exactly one source variant, and
an admitted submission creates a job record in state queued with
progress 0 while appending the id to the queue. -/
theorem c3_submit_validation (qmax : Nat) (newId : String) (b : Backend)
    (r : SubmitRequest) :
    (exactlyOneSource r = false →
        submitAsync qmax newId b r = (b, SubmitOutcome.validationError)) ∧
    ((submitAsync qmax newId b r).1.jobs ≠ b.jobs → exactlyOneSource r = true) ∧
    (exactlyOneSource r = true → b.queue.length < qmax →
        (submitAsync qmax newId b r).2 = SubmitOutcome.accepted newId ∧
        (submitAsync qmax newId b r).1.queue = b.queue ++ [newId] ∧
        ∃ sj : ServerJob,
          alookup newId (submitAsync qmax newId b r).1.jobs = some sj ∧
          sj.state = "queued" ∧ sj.progress = 0) := by
  refine ⟨?_, ?_, ?_⟩
  · intro h
    simp [submitAsync, h]
  · intro hne
    by_contra hfalse
    have h : exactlyOneSource r = false := by
      cases hx : exactlyOneSource r
      · rfl
      · exact absurd hx hfalse
    exact hne (by simp [submitAsync, h])
  · intro h1 h2
    have hq : enqueueJob qmax b.queue newId = some (b.queue ++ [newId]) := by
      simp [enqueueJob, Nat.not_le.mpr h2]
    refine ⟨?_, ?_, ?_⟩ <;>
      simp [submitAsync, h1, hq, alookup]

/-- Claim C3 witness: both-variant and neither-variant submissions are
rejected with no state change, and a well-formed URL submission is
accepted. -/
theorem c3_submit_validation_witness :
    (exactlyOneSource cReqBoth = false ∧
      submitAsync 4 "job-1" cBackendEmpty cReqBoth
        = (cBackendEmpty, SubmitOutcome.validationError)) ∧
    (exactlyOneSource cReqNeither = false ∧
      submitAsync 4 "job-1" cBackendEmpty cReqNeither
        = (cBackendEmpty, SubmitOutcome.validationError)) ∧
    (submitAsync 4 "job-1" cBackendEmpty cReqUrl).2 = SubmitOutcome.accepted "job-1" :=
  ⟨⟨by decide, (c3_submit_validation 4 "job-1" cBackendEmpty cReqBoth).1 (by decide)⟩,
   ⟨by decide, (c3_submit_validation 4 "job-1" cBackendEmpty cReqNeither).1 (by decide)⟩,
   ((c3_submit_validation 4 "job-1" cBackendEmpty cReqUrl).2.2 (by decide) (by decide)).1⟩

/-- Claim C6: a well-formed submission arriving while the queue already
holds qmax pending items is rejected immediately with Saturated and
changes neither the job store nor the queue. -/
theorem c6_submit_saturated (qmax : Nat) (newId : String) (b : Backend)
    (r : SubmitRequest) (h1 : exactlyOneSource r = true)
    (h2 : qmax ≤ b.queue.length) :
    submitAsync qmax newId b r = (b, SubmitOutcome.saturated) := by
  simp [submitAsync, h1, enqueueJob, h2]

/-- Claim C6 witness: with capacity 2 and two pending items, a
well-formed submission is rejected with Saturated and the backend is
unchanged. -/
theorem c6_submit_saturated_witness :
    2 ≤ cBackendFull.queue.length ∧
    submitAsync 2 "job-9" cBackendFull cReqUrl = (cBackendFull, SubmitOutcome.saturated) :=
  ⟨by decide, c6_submit_saturated 2 "job-9" cBackendFull cReqUrl (by decide) (by decide)⟩

/- ===================================================================
   Claims C4, C5, C7 and C10 (background event dispatch)
   =================================================================== -/

/-- Claim C4: the dispatch in background.js does not handle the event
tags of the documented stream vocabulary. A progress payload tagged
"state" and a payload tagged "log" — the tags the design document
specifies — both fall into the default case and have no observable
effect, while the same progress payload is only handled under the tag
"status", which is outside the documented tag set. -/
theorem c4_state_log_tags_dropped :
    Background.handleSseEvent none 0 c4State "j1" c4StateEv = (c4State, []) ∧
    Background.handleSseEvent none 0 c4State "j1" c4LogEv = (c4State, []) ∧
    Background.handleSseEvent none 0 c4State "j1" c4StatusEv =
      (c4State,
       [Effect.setBadgeText "35%", Effect.setBadgeColor "#4285f4",
        Effect.sendMessage (PopupMsg.jobProgress "j1" 35 "parsing")]) := by
  refine ⟨by decide, by decide, by decide⟩

/-- Claim C5: when the SSE connection of a tracked job errors after a
progress event and before any terminal event, the background script
only emits the progress effects, a Connection Error notification, and
tears the connection down; it issues no new subscription and no polling
request, and the stored job record still carries no result and no
completion time, so the outcome of the job is lost. -/
theorem c5_disconnect_drops_outcome :
    Background.startSseStream none 0 c5State "j1" c5Events true =
      (c5State,
       [Effect.setBadgeText "40%", Effect.setBadgeColor "#4285f4",
        Effect.sendMessage (PopupMsg.jobProgress "j1" 40 "parsing"),
        Effect.notify "Connection Error" "Lost connection to analysis service"]) ∧
    alookup "j1"
        (Background.startSseStream none 0 c5State "j1" c5Events true).1.activeJobs
      = some { url := "https://arxiv.org/pdf/1234.5678", submittedAt := 0,
               completedAt := none, result := none } := by
  refine ⟨by decide, by decide⟩

/-- Claim C7: the cancel_job message handler responds success true for
every job id — an unknown id is not answered with NotFound, and for a
tracked job the only actions are cancelling the local SSE reader and
clearing the badge; no cancellation request reaches the backend and no
AlreadyTerminal distinction exists. -/
theorem c7_cancel_always_success :
    Background.handleCancelMessage { activeJobs := [], sseConnections := [] } "missing"
      = ({ activeJobs := [], sseConnections := [] },
         [Effect.setBadgeText ""], { success := true }) ∧
    Background.handleCancelMessage c7State "j1"
      = ({ activeJobs := [], sseConnections := [] },
         [Effect.readerCancel "j1", Effect.setBadgeText ""], { success := true }) := by
  refine ⟨by decide, by decide⟩

/-- Claim C10: an incoming stream event whose job id is not in the
activeJobs map is dropped at the dispatch guard: the state is returned
unchanged and no effect — badge, notification, message or fetch — is
emitted. -/
theorem c10_untracked_event_frame (fetchRes : Option String) (now : Nat) (s : BgState)
    (jobId : String) (e : SseEvent) (h : alookup jobId s.activeJobs = none) :
    Background.handleSseEvent fetchRes now s jobId e = (s, []) := by
  unfold Background.handleSseEvent
  rw [h]

/-- Claim C10 witness: a progress event for the id ghost, absent from a
map tracking only the id tracked, leaves the state unchanged with no
effects. -/
theorem c10_untracked_event_frame_witness :
    alookup "ghost" c10State.activeJobs = none ∧
    Background.handleSseEvent none 0 c10State "ghost" c10Event = (c10State, []) :=
  ⟨by decide, c10_untracked_event_frame none 0 c10State "ghost" c10Event (by decide)⟩
